import Mathlib

/-!
Verification of the YouTube playlist cleanup tool (src/app.py).

The program is a single Streamlit script. We shallowly embed its pure
control flow in Lean:

* Network calls are modelled by pre-supplied response values.  The
  paginated `playlistItems().list` API is modelled as a list of
  responses, consumed in order: the n-th element is what the API returns
  to the n-th request of the `while True` loop of `get_playlist_items`.
* Streamlit session state, the pickled token file and the SQLite table
  become explicit values threaded through the functions.
* Exceptions become an `err` constructor of the response type; a `try`
  block that catches and reports becomes a branch on that constructor.
-/

/-- A playlist item as consumed by `main` (src/app.py lines 206-211):
`id` is the playlist-item id (`item['id']`), `videoId` is
`item['snippet']['resourceId']['videoId']`, `title` and `channelTitle`
come from the snippet. -/
structure PlaylistItem where
  id : String
  title : String
  channelTitle : String
  videoId : String
  deriving DecidableEq, Repr

/-- One response of the `playlistItems().list` API inside
`get_playlist_items` (src/app.py lines 120-126): either a page of items
together with the optional `nextPageToken` (src/app.py line 129), or an
exception raised by `request.execute()`. -/
inductive ApiPage where
  | ok (items : List PlaylistItem) (nextPageToken : Option String)
  | err (msg : String)
  deriving DecidableEq, Repr

/-- The accumulator loop of `get_playlist_items` (src/app.py lines
118-134).  `acc` is the `items` list built by `items.extend(...)`.  On a
page with no `nextPageToken` the loop breaks after extending; on an
exception it breaks without extending; otherwise it continues with the
next response.  The `[]` case (API never stops answering) is unreachable
under the hypotheses of every theorem below and returns the accumulator. -/
def get_playlist_items_aux : List ApiPage → List PlaylistItem → List PlaylistItem
  | [], acc => acc
  | ApiPage.ok its none :: _, acc => acc ++ its
  | ApiPage.ok its (some _) :: rest, acc => get_playlist_items_aux rest (acc ++ its)
  | ApiPage.err _ :: _, acc => acc

/-- `get_playlist_items` (src/app.py lines 114-136): start with
`items = []` and run the pagination loop over the API's responses. -/
def get_playlist_items (pages : List ApiPage) : List PlaylistItem :=
  get_playlist_items_aux pages []

/-- A sequence of pages that all carry a continuation cursor, as fed to
the loop: each pair is (items of the page, its `nextPageToken`). -/
def cursorPages (ps : List (List PlaylistItem × String)) : List ApiPage :=
  ps.map (fun p => ApiPage.ok p.1 (some p.2))

/-- `main` shows the item table, the filters, the multiselect and the
remove button only under `if items:` (src/app.py line 204); an empty
item list falls to the `else` branch (line 266). -/
def show_removal_controls (items : List PlaylistItem) : Bool :=
  !items.isEmpty

lemma get_playlist_items_aux_cursorPages (ps : List (List PlaylistItem × String))
    (rs : List ApiPage) (acc : List PlaylistItem) :
    get_playlist_items_aux (cursorPages ps ++ rs) acc
      = get_playlist_items_aux rs (acc ++ (ps.map Prod.fst).flatten) := by
  induction ps generalizing acc with
  | nil => simp [cursorPages]
  | cons p ps ih =>
      rw [show cursorPages (p :: ps) = ApiPage.ok p.1 (some p.2) :: cursorPages ps from rfl,
        List.cons_append,
        show ∀ l a, get_playlist_items_aux (ApiPage.ok p.1 (some p.2) :: l) a
            = get_playlist_items_aux l (a ++ p.1) from fun _ _ => rfl,
        ih]
      simp [List.append_assoc]

/-- C1: for any run of cursor-carrying pages followed by a cursor-less
page, `get_playlist_items` stops at that first cursor-less response
(responses after it, `rest`, are never consumed) and returns exactly the
concatenation of all fetched pages: every item of every fetched page
appears exactly once, in order, with nothing dropped or duplicated. -/
theorem get_playlist_items_exact (ps : List (List PlaylistItem × String))
    (lastItems : List PlaylistItem) (rest : List ApiPage) :
    get_playlist_items (cursorPages ps ++ ApiPage.ok lastItems none :: rest)
      = (ps.map Prod.fst).flatten ++ lastItems := by
  unfold get_playlist_items
  rw [get_playlist_items_aux_cursorPages]
  simp [get_playlist_items_aux]

/-- C10: when a page request raises partway through the pagination
(after the cursor-carrying pages `ps`), `get_playlist_items` catches the
exception, reports it, and returns the items accumulated so far — a
silently incomplete list, with no failure signalled to the caller
(`main` then filters and deletes on that basis). -/
theorem get_playlist_items_partial_on_error (ps : List (List PlaylistItem × String))
    (msg : String) (rest : List ApiPage) :
    get_playlist_items (cursorPages ps ++ ApiPage.err msg :: rest)
      = (ps.map Prod.fst).flatten := by
  unfold get_playlist_items
  rw [get_playlist_items_aux_cursorPages]
  simp [get_playlist_items_aux]

/-- C9: for an empty playlist — the API answers the first request with a
page carrying no items and no continuation cursor — `get_playlist_items`
returns the empty collection, and `main`'s `if items:` gate offers no
selection or removal controls. -/
theorem empty_playlist_no_removal_controls (rest : List ApiPage) :
    get_playlist_items (ApiPage.ok [] none :: rest) = []
    ∧ show_removal_controls (get_playlist_items (ApiPage.ok [] none :: rest)) = false := by
  constructor <;> simp [get_playlist_items, get_playlist_items_aux, show_removal_controls]

/-- An audit row as inserted by `store_audit` (src/app.py lines
147-156), with the seven columns of the `audit_log` table (lines 80-87).
`removed_date` abstracts the `datetime.now()` timestamp as seconds. -/
structure AuditRecord where
  video_id : String
  title : String
  link : String
  channel : String
  playlist_id : String
  playlist_name : String
  removed_date : Nat
  deriving DecidableEq, Repr

/-- The `video_data` tuple built in `main` for one selected item
(src/app.py lines 248-256), via the DataFrame row of lines 206-211:
the DataFrame's `video_id` column holds `item['id']` (the playlist-item
id), its `link` column holds a URL built from
`item['snippet']['resourceId']['videoId']`, and the playlist id/name and
current time are appended. -/
def video_data (playlist_id playlist_name : String) (now : Nat)
    (it : PlaylistItem) : AuditRecord :=
  { video_id := it.id
    title := it.title
    link := "https://youtube.com/watch?v=" ++ it.videoId
    channel := it.channelTitle
    playlist_id := playlist_id
    playlist_name := playlist_name
    removed_date := now }

/-- The audit-writing loop of `main` (src/app.py lines 247-257): one
`store_audit` call per selected item, in selection order. -/
def audit_rows (playlist_id playlist_name : String) (now : Nat)
    (sel : List PlaylistItem) : List AuditRecord :=
  sel.map (video_data playlist_id playlist_name now)

/-- `remove_videos` (src/app.py lines 139-144): for each id issue one
`playlistItems().delete` call; a raised exception is caught, an error
message is shown, and the loop continues with the next id.  `outcome`
tells whether the delete call for an id succeeds.  Returns the list of
delete calls issued and the list of error messages shown. -/
def remove_videos (outcome : String → Bool) : List String → List String × List String
  | [] => ([], [])
  | video_id :: rest =>
      let r := remove_videos outcome rest
      (video_id :: r.1,
        if outcome video_id then r.2
        else ("Error removing video " ++ video_id) :: r.2)

lemma remove_videos_calls (outcome : String → Bool) (ids : List String) :
    (remove_videos outcome ids).1 = ids := by
  induction ids with
  | nil => rfl
  | cons i ids ih => simp [remove_videos, ih]

/-- One observable step of the removal flow of `main` (src/app.py lines
243-261): an audit row inserted by `store_audit`, or a delete call
issued by `remove_videos`. -/
inductive RemovalEvent where
  | audit (r : AuditRecord)
  | deleteCall (id : String)
  deriving DecidableEq, Repr

/-- The event trace of the removal flow of `main` (src/app.py lines
243-261): first the audit-writing loop over the selected items (lines
247-257), then `remove_videos` over the selected items' `video_id`
column (lines 260-261). -/
def removal_trace (playlist_id playlist_name : String) (now : Nat)
    (outcome : String → Bool) (sel : List PlaylistItem) : List RemovalEvent :=
  (audit_rows playlist_id playlist_name now sel).map RemovalEvent.audit
    ++ (remove_videos outcome (sel.map PlaylistItem.id)).1.map RemovalEvent.deleteCall

/-- C2: a batch removal of the selected items issues exactly one delete
call per item — hence at most N calls for N items, independent of the
outcome function, so a failure on item k never prevents the attempt on
any other item — and writes exactly one audit row per item, hence at
most N audit rows. -/
theorem batch_removal_per_item (outcome : String → Bool)
    (playlist_id playlist_name : String) (now : Nat) (sel : List PlaylistItem) :
    (remove_videos outcome (sel.map PlaylistItem.id)).1 = sel.map PlaylistItem.id
    ∧ (remove_videos outcome (sel.map PlaylistItem.id)).1.length = sel.length
    ∧ (audit_rows playlist_id playlist_name now sel).length = sel.length := by
  refine ⟨remove_videos_calls outcome _, ?_, ?_⟩
  · rw [remove_videos_calls]
    exact List.length_map _ _
  · exact List.length_map _ _

/-- C7: in the removal flow of `main`, the audit row for every selected
item is written (position `p` in the trace) strictly before the delete
call for that item is issued (position `q`): the audit loop of lines
247-257 runs to completion before `remove_videos` is called at line 261. -/
theorem audit_written_before_delete (playlist_id playlist_name : String) (now : Nat)
    (outcome : String → Bool) (sel : List PlaylistItem) (k : Nat) (it : PlaylistItem)
    (hk : sel[k]? = some it) :
    ∃ p q : Nat, p < q
      ∧ (removal_trace playlist_id playlist_name now outcome sel)[p]?
          = some (RemovalEvent.audit (video_data playlist_id playlist_name now it))
      ∧ (removal_trace playlist_id playlist_name now outcome sel)[q]?
          = some (RemovalEvent.deleteCall it.id) := by
  have hklt : k < sel.length := by
    by_contra h
    rw [List.getElem?_eq_none (Nat.le_of_not_lt h)] at hk
    exact Option.noConfusion hk
  refine ⟨k, sel.length + k, by omega, ?_, ?_⟩
  · rw [removal_trace, List.getElem?_append,
      if_pos (by simp only [List.length_map, audit_rows]; omega)]
    simp [audit_rows, List.getElem?_map, hk]
  · rw [removal_trace, List.getElem?_append,
      if_neg (by simp only [List.length_map, audit_rows]; omega)]
    simp [audit_rows, remove_videos_calls, List.getElem?_map, hk,
      Nat.add_sub_cancel_left]

/-- Witness for C7 at a one-item selection whose delete call fails. -/
theorem audit_written_before_delete_witness :
    ∃ p q : Nat, p < q
      ∧ (removal_trace "PL1" "Mix" 5 (fun _ => false) [⟨"pli1", "t1", "ch1", "vid1"⟩])[p]?
          = some (RemovalEvent.audit (video_data "PL1" "Mix" 5 ⟨"pli1", "t1", "ch1", "vid1"⟩))
      ∧ (removal_trace "PL1" "Mix" 5 (fun _ => false) [⟨"pli1", "t1", "ch1", "vid1"⟩])[q]?
          = some (RemovalEvent.deleteCall "pli1") :=
  audit_written_before_delete "PL1" "Mix" 5 (fun _ => false)
    [⟨"pli1", "t1", "ch1", "vid1"⟩] 0 ⟨"pli1", "t1", "ch1", "vid1"⟩ rfl

/-- A concrete playlist item whose playlist-item id and video id differ,
as they always do in the YouTube API. -/
def samplePlaylistItem : PlaylistItem :=
  { id := "UEx0ZXN0LWl0ZW0x", title := "Song", channelTitle := "Chan",
    videoId := "dQw4w9WgXcQ" }

/-- C6: the audit row built for a selected item stores the playlist-item
id (`item['id']`, copied into the DataFrame's `video_id` column at
src/app.py line 207) in the `video_id` field — not the item's video id,
which the code demonstrably has at hand, since the stored `link` is
built from `item['snippet']['resourceId']['videoId']` (line 210). -/
theorem audit_video_id_is_playlist_item_id :
    (video_data "PL1" "Mix" 5 samplePlaylistItem).video_id = samplePlaylistItem.id
    ∧ (video_data "PL1" "Mix" 5 samplePlaylistItem).video_id ≠ samplePlaylistItem.videoId
    ∧ (video_data "PL1" "Mix" 5 samplePlaylistItem).link
        = "https://youtube.com/watch?v=dQw4w9WgXcQ" := by
  refine ⟨rfl, ?_, rfl⟩
  decide

/-- The fields of a stored Google credential that `load_credentials`
reads (src/app.py lines 33-45): `valid`, `expired`, and whether a
refresh token is present (`creds.refresh_token`). -/
structure StoredCreds where
  valid : Bool
  expired : Bool
  refresh_token : Bool
  deriving DecidableEq, Repr

/-- The credential stores visible to `YouTubeAuth`: the
`youtube_credentials` entry of the Streamlit session state and the
pickled `token.pickle` file (`none` = absent). -/
structure CredStore where
  session : Option StoredCreds
  pickle : Option StoredCreds
  deriving DecidableEq, Repr

/-- The credential produced by a successful `creds.refresh(Request())`
(src/app.py line 40): valid, no longer expired, same refresh token. -/
def refreshedCreds (c : StoredCreds) : StoredCreds :=
  { valid := true, expired := false, refresh_token := c.refresh_token }

/-- `load_credentials` (src/app.py lines 21-47) as a state transformer:
a session-cached credential is accepted unconditionally (lines 23-25);
otherwise the pickled credential is loaded (lines 28-30), accepted if
valid (lines 33-35, caching it in the session), refreshed if expired
with a refresh token (lines 38-45, persisting the refreshed credential
to session and pickle on success, returning False on a refresh
exception), and rejected otherwise (line 47).  `refresh_ok` tells
whether the refresh call would succeed.  No branch ever clears either
store. -/
def load_credentials (store : CredStore) (refresh_ok : Bool) : CredStore × Bool :=
  match store.session with
  | some _ => (store, true)
  | none =>
      match store.pickle with
      | none => (store, false)
      | some c =>
          if c.valid then ({ store with session := some c }, true)
          else if c.expired && c.refresh_token then
            if refresh_ok then
              ({ session := some (refreshedCreds c), pickle := some (refreshedCreds c) }, true)
            else (store, false)
          else (store, false)

/-- An expired credential that carries no refresh token. -/
def expiredNoRefresh : StoredCreds :=
  { valid := false, expired := true, refresh_token := false }

/-- C3 counterexample: a credential cached in the session state is
accepted unconditionally (src/app.py lines 23-25), so `load_credentials`
reports success even for a stored credential that is expired without a
refresh token — the claim demands failure there.  (The OAuth state check
the claim mentions lives inside the library call of `authenticate`, not
in `load_credentials`.) -/
theorem load_credentials_claim_false :
    (load_credentials { session := some expiredNoRefresh, pickle := none } true).2 = true
    ∧ expiredNoRefresh.expired = true
    ∧ expiredNoRefresh.refresh_token = false := by
  decide

/-- C3 amended: when no credential is cached in the session,
`load_credentials` reports failure exactly when the pickled credential
is absent, or is present but invalid and not successfully refreshable
(not expired, or lacking a refresh token, or the refresh call fails);
a session-cached credential is accepted unconditionally, and the OAuth
state check is performed inside the library during `authenticate`. -/
theorem load_credentials_failure_iff (c : StoredCreds) (refresh_ok : Bool) :
    (load_credentials { session := none, pickle := none } refresh_ok).2 = false
    ∧ ((load_credentials { session := none, pickle := some c } refresh_ok).2 = false
        ↔ (c.valid = false
            ∧ (c.expired = false ∨ c.refresh_token = false ∨ refresh_ok = false))) := by
  obtain ⟨v, e, r⟩ := c
  cases v <;> cases e <;> cases r <;> cases refresh_ok <;>
    simp [load_credentials]

/-- A playlist as built by `get_playlists` (src/app.py lines 103-108):
id, title, item count. -/
structure Playlist where
  id : String
  title : String
  count : Nat
  deriving DecidableEq, Repr

/-- The result of the `playlists().list(...).execute()` call inside
`get_playlists` (src/app.py lines 96-101): a page of playlists, or an
exception. -/
inductive PlaylistsApi where
  | ok (playlists : List Playlist)
  | err (msg : String)
  deriving DecidableEq, Repr

/-- `get_playlists` (src/app.py lines 93-111) as a state transformer
over the credential store: on success it returns the accumulated
playlists; the exception handler (lines 109-110) shows the error text
and falls through to `return playlists` with the empty accumulator.
Neither branch touches the credential store.  Returns (playlists, store
after the call, error message shown if any). -/
def get_playlists (store : CredStore) (api : PlaylistsApi) :
    List Playlist × CredStore × Option String :=
  match api with
  | PlaylistsApi.ok ps => (ps, store, none)
  | PlaylistsApi.err msg => ([], store, some ("Error fetching playlists: " ++ msg))

/-- A currently valid credential with a refresh token. -/
def validCreds : StoredCreds :=
  { valid := true, expired := false, refresh_token := true }

/-- C5 counterexample: a fetch error in `get_playlists` is caught and
shown as text, but the credential store is returned unchanged — nothing
is cleared — and a subsequent `load_credentials` on that store still
succeeds, so no re-authorization is forced, contradicting the claimed
clear-state-and-reauthorize recovery. -/
theorem fetch_error_keeps_credentials :
    (get_playlists { session := some validCreds, pickle := some validCreds }
        (PlaylistsApi.err "quota")).2.1
      = { session := some validCreds, pickle := some validCreds }
    ∧ ((get_playlists { session := some validCreds, pickle := some validCreds }
        (PlaylistsApi.err "quota")).2.2).isSome = true
    ∧ (load_credentials { session := some validCreds, pickle := some validCreds } true).2
      = true := by
  refine ⟨rfl, rfl, rfl⟩

/-- C5 amended: a caught error in a fetch or delete operation is shown
as text and the operation continues with a partial result; no error
handler clears the credential store (a fetch error returns it unchanged,
and `load_credentials` never empties the pickled credential), no
re-authorization is forced by fetch or delete errors, and nothing is
retried automatically (each selected id gets exactly one delete call,
failing or not). -/
theorem error_recovery_no_reset (store : CredStore) (msg : String)
    (outcome : String → Bool) (ids : List String) (refresh_ok : Bool) :
    get_playlists store (PlaylistsApi.err msg)
        = ([], store, some ("Error fetching playlists: " ++ msg))
    ∧ (remove_videos outcome ids).1 = ids
    ∧ ((load_credentials store refresh_ok).1).pickle.isSome = store.pickle.isSome := by
  refine ⟨rfl, remove_videos_calls _ _, ?_⟩
  obtain ⟨s, p⟩ := store
  cases s with
  | some c => simp [load_credentials]
  | none =>
      cases p with
      | none => simp [load_credentials]
      | some c =>
          obtain ⟨v, e, r⟩ := c
          cases v <;> cases e <;> cases r <;> cases refresh_ok <;>
            simp [load_credentials, refreshedCreds]

/-- `init_db` (src/app.py lines 76-90): `CREATE TABLE IF NOT EXISTS
audit_log` creates an empty table when none exists and leaves an
existing table — all its rows — untouched.  `none` models a database in
which the table does not exist yet. -/
def init_db : Option (List AuditRecord) → Option (List AuditRecord)
  | none => some []
  | some t => some t

/-- `store_audit` (src/app.py lines 147-156): a single `INSERT INTO
audit_log` appends one row to the table. -/
def store_audit (table : List AuditRecord) (r : AuditRecord) : List AuditRecord :=
  table ++ [r]

/-- `pd.to_datetime(...).dt.date` on the abstracted seconds timestamp:
the calendar date as a day number. -/
def dateOf (ts : Nat) : Nat :=
  ts / 86400

/-- The columns of the `audit_log` table (src/app.py lines 80-87), in
schema order, as read back by `SELECT * FROM audit_log` (line 274). -/
def audit_columns : List String :=
  ["video_id", "title", "link", "channel", "playlist_id", "playlist_name", "removed_date"]

/-- The CSV cells of one stored audit row, one per schema column. -/
def record_cells (r : AuditRecord) : List String :=
  [r.video_id, r.title, r.link, r.channel, r.playlist_id, r.playlist_name,
    toString r.removed_date]

/-- The CSV produced by the Audit Log page (src/app.py lines 270-294):
`pd.read_sql_query` loads the table with the schema columns; when a date
filter is chosen, line 281 first ADDS a derived `date` column to the
DataFrame and line 282 keeps the rows whose date equals the filter;
`audit_df.to_csv(index=False)` (line 288) then exports every column the
DataFrame has at that point — including the derived `date` column when a
filter is active.  Returns (CSV header, CSV data rows). -/
def export_audit (table : List AuditRecord) (dateFilter : Option Nat) :
    List String × List (List String) :=
  match dateFilter with
  | none => (audit_columns, table.map record_cells)
  | some d =>
      (audit_columns ++ ["date"],
        (table.filter (fun r => dateOf r.removed_date == d)).map
          (fun r => record_cells r ++ [toString (dateOf r.removed_date)]))

/-- The Audit Log page as a state transformer on the table: it only ever
runs `SELECT`, so rendering and exporting return the table unchanged
alongside the produced CSV. -/
def audit_page (table : List AuditRecord) (dateFilter : Option Nat) :
    List AuditRecord × (List String × List (List String)) :=
  (table, export_audit table dateFilter)

/-- A concrete audit row removed during day 3 (timestamp 3·86400+7). -/
def sampleAudit : AuditRecord :=
  { video_id := "UEx0ZXN0LWl0ZW0x", title := "Song",
    link := "https://youtube.com/watch?v=dQw4w9WgXcQ", channel := "Chan",
    playlist_id := "PL1", playlist_name := "Mix", removed_date := 259207 }

/-- C4 counterexample: with a date filter active, the exported CSV
carries an eighth column — the derived `date` helper added at src/app.py
line 281 — so its columns are not exactly the stored schema, even though
the row count (here 1) does equal the filtered record count. -/
theorem export_columns_claim_false :
    (export_audit [sampleAudit] (some 3)).1 ≠ audit_columns
    ∧ (export_audit [sampleAudit] (some 3)).1 = audit_columns ++ ["date"]
    ∧ (export_audit [sampleAudit] (some 3)).2.length = 1 := by
  refine ⟨by decide, rfl, rfl⟩

/-- C4 amended: the exported CSV has exactly one data row per audit
record passing the date filter (all records when no filter is chosen);
its columns are exactly the stored schema when no date filter is set,
and the schema plus the derived `date` column when a filter is active. -/
theorem export_audit_shape (table : List AuditRecord) (dateFilter : Option Nat) :
    (export_audit table dateFilter).2.length
      = (match dateFilter with
          | none => table.length
          | some d => (table.filter (fun r => dateOf r.removed_date == d)).length)
    ∧ (export_audit table dateFilter).1
      = (match dateFilter with
          | none => audit_columns
          | some _ => audit_columns ++ ["date"]) := by
  cases dateFilter <;> simp [export_audit]

/-- C8: the audit log is append-only: running `init_db` on an existing
table keeps every stored row (and creates an empty table otherwise),
`store_audit` only appends — every existing row survives as a prefix —
and viewing/exporting the Audit Log page leaves the table unchanged. -/
theorem audit_log_append_only (t : List AuditRecord) (r : AuditRecord) (f : Option Nat) :
    init_db (some t) = some t
    ∧ init_db none = some []
    ∧ store_audit t r = t ++ [r]
    ∧ (store_audit t r).take t.length = t
    ∧ (audit_page t f).1 = t := by
  refine ⟨rfl, rfl, rfl, ?_, rfl⟩
  simp [store_audit]
